import Mathlib

/-
  Verification development for the AsTeck traffic-intelligence bot.

  Shallow embedding of the incident lifecycle and verification engine:
  the rule-based fallback classifier (src/models/gemini.ts), the
  location-message report finalization flow (services/telegram.ts),
  the incident / user / confirmation store operations
  (src/infra/supabase.ts together with the SQL schema), and the
  HTTP report route (api/routes.ts).
-/

namespace Asteck

/-! ## Basic enumerations (src/types, SQL schema CHECK constraints) -/

inductive IncidentType
  | accident
  | police_control
  | flooding
  | traffic_jam
  | road_damage
  | road_works
  | hazard
  | protest
  | roadblock
  | sos
  | other
deriving DecidableEq, Repr

/-- Incident status; the SQL schema allows pending, verified, expired
and a fourth value spelled "false" in the database, rendered here as
falseReport because false is a Lean keyword. -/
inductive IncidentStatus
  | pending
  | verified
  | expired
  | falseReport
deriving DecidableEq, Repr

inductive Vote
  | confirm
  | deny
deriving DecidableEq, Repr

/-! ## JS helpers

The TypeScript source leans on JavaScript truthiness (the binary
operator that yields the right operand when the left is falsy) and on
regex word boundaries. These helpers reproduce those semantics. -/

/-- JS expression v or-else d for numbers: 0 is falsy, so 0 maps to d. -/
def jsOrNat (o : Option Nat) (d : Nat) : Nat :=
  match o with
  | none => d
  | some v => if v = 0 then d else v

/-- JS expression v or-else 0 for a nullable numeric column: null and 0
both map to 0 (identity on the stored integers). -/
def jsOrZero (o : Option Int) : Int :=
  match o with
  | none => 0
  | some c => if c = 0 then 0 else c

/-- JS regex word character: ASCII letter, digit or underscore. -/
def isWordChar (c : Char) : Bool :=
  (decide ('a' ≤ c) && decide (c ≤ 'z')) ||
  (decide ('A' ≤ c) && decide (c ≤ 'Z')) ||
  (decide ('0' ≤ c) && decide (c ≤ '9')) ||
  (c == '_')

/-- Whether position p of the text holds a word character (false past
the end, mirroring how regex engines treat the virtual ends). -/
def wordAt (t : List Char) (p : Nat) : Bool :=
  match t.get? p with
  | some c => isWordChar c
  | none => false

/-- JS regex word boundary between positions p-1 and p: exactly one
side is a word character. -/
def boundaryAt (t : List Char) (p : Nat) : Bool :=
  match p with
  | 0 => wordAt t 0
  | q + 1 => wordAt t q != wordAt t (q + 1)

/-- A literal alternative k of a regex of shape boundary-(k1|...|kn)-boundary
matches at position p: the slice equals k and both ends sit on word
boundaries. -/
def matchesAt (t k : List Char) (p : Nat) : Bool :=
  decide ((t.drop p).take k.length = k) && boundaryAt t p && boundaryAt t (p + k.length)

/-- The whole-word regex for the single literal k matches somewhere in t. -/
def wordMatch (t k : List Char) : Bool :=
  (List.range (t.length + 1)).any (fun p => matchesAt t k p)

/-- The whole-word regex for the alternation of the literals ks matches in t. -/
def anyWordMatch (t : List Char) (ks : List (List Char)) : Bool :=
  ks.any (fun k => wordMatch t k)

/-- JS String.toLowerCase restricted to the alphabets occurring in the
classifier: ASCII uppercase folds, plus the accented capitals of the
French keywords; all other characters are unchanged. -/
def jsLower (c : Char) : Char :=
  if decide ('A' ≤ c) && decide (c ≤ 'Z') then Char.ofNat (c.toNat + 32)
  else if c == 'É' then 'é'
  else if c == 'È' then 'è'
  else if c == 'Ê' then 'ê'
  else if c == 'À' then 'à'
  else if c == 'Ô' then 'ô'
  else if c == 'Ç' then 'ç'
  else c

/-! ## Rule-based fallback classifier (GeminiModel.fallbackParse) -/

/-- Result record of the AI parser abstraction (models/base.ts). -/
structure ParsedIncident where
  type : IncidentType
  severity : Nat
  description : String
  isEmergency : Bool
  confidence : ℚ
deriving DecidableEq, Repr

def emergencyKeywords : List (List Char) :=
  ["sos".toList, "urgence".toList, "emergency".toList, "help".toList,
   "au secours".toList, "aide".toList]

def accidentKeywords : List (List Char) :=
  ["accident".toList, "collision".toList, "crash".toList]

def policeKeywords : List (List Char) :=
  ["police".toList, "gendarmerie".toList, "contrôle".toList, "control".toList,
   "checkpoint".toList]

def floodingKeywords : List (List Char) :=
  ["flood".toList, "inondation".toList, "eau".toList, "water".toList]

def trafficJamKeywords : List (List Char) :=
  ["embouteillage".toList, "bouchon".toList, "jam".toList, "traffic".toList,
   "congestion".toList]

def roadWorksKeywords : List (List Char) :=
  ["travaux".toList, "chantier".toList, "works".toList, "construction".toList]

def hazardKeywords : List (List Char) :=
  ["arbre".toList, "débris".toList, "danger".toList, "hazard".toList,
   "fallen".toList, "tree".toList]

def roadDamageKeywords : List (List Char) :=
  ["route".toList, "road".toList, "trou".toList, "hole".toList,
   "damage".toList, "cassé".toList]

def protestKeywords : List (List Char) :=
  ["protest".toList, "manifestation".toList, "grève".toList, "strike".toList]

def roadblockKeywords : List (List Char) :=
  ["barrage".toList, "roadblock".toList, "block".toList]

/-- Type inference of fallbackParse: the ordered if/else chain over the
whole-word regexes, first hit wins, defaulting to other. -/
def inferType (lowerText : List Char) : IncidentType :=
  if anyWordMatch lowerText accidentKeywords then .accident
  else if anyWordMatch lowerText policeKeywords then .police_control
  else if anyWordMatch lowerText floodingKeywords then .flooding
  else if anyWordMatch lowerText trafficJamKeywords then .traffic_jam
  else if anyWordMatch lowerText roadWorksKeywords then .road_works
  else if anyWordMatch lowerText hazardKeywords then .hazard
  else if anyWordMatch lowerText roadDamageKeywords then .road_damage
  else if anyWordMatch lowerText protestKeywords then .protest
  else if anyWordMatch lowerText roadblockKeywords then .roadblock
  else .other

/-- GeminiModel.fallbackParse: lowercase the text, detect the emergency
keywords, infer a type by the ordered rules, force sos on emergency;
severity 5 on emergency else 3, description truncated to 100 characters,
confidence 0.6. -/
def fallbackParse (text : String) : ParsedIncident :=
  let lowerText := text.toList.map jsLower
  let isEmergency := anyWordMatch lowerText emergencyKeywords
  let ty := inferType lowerText
  { type := if isEmergency then .sos else ty
    severity := if isEmergency then 5 else 3
    description := text.take 100
    isEmergency := isEmergency
    confidence := 6 / 10 }

/-- GeminiModel.analyzeText when no backend is configured (genAI null):
it returns fallbackParse directly. -/
def analyzeTextNoBackend (text : String) : ParsedIncident :=
  fallbackParse text

/-- Spec-side formulation of the type rules for the refinement proof of
claim C6: an ordered rule list searched for the first matching entry. -/
def typeRules : List (IncidentType × List (List Char)) :=
  [(.accident, accidentKeywords),
   (.police_control, policeKeywords),
   (.flooding, floodingKeywords),
   (.traffic_jam, trafficJamKeywords),
   (.road_works, roadWorksKeywords),
   (.hazard, hazardKeywords),
   (.road_damage, roadDamageKeywords),
   (.protest, protestKeywords),
   (.roadblock, roadblockKeywords)]

/-- First matching rule of the ordered list determines the type; no
match yields other. -/
def firstRuleType (lowerText : List Char) : IncidentType :=
  match typeRules.find? (fun r => anyWordMatch lowerText r.2) with
  | some r => r.1
  | none => .other

/-! ## Incident store (src/infra/supabase.ts, SQL schema) -/

structure Coordinates where
  latitude : ℚ
  longitude : ℚ
deriving DecidableEq, Repr

/-- The columns written by createIncident, i.e. an incident before the
database assigns its id (TS type Omit of Incident and id). Timestamps
are milliseconds since the epoch. -/
structure NewIncident where
  type : IncidentType
  description : Option String
  location : Coordinates
  address : Option String
  severity : Nat
  status : IncidentStatus
  reporterId : String
  reporterUsername : Option String
  confirmations : Int
  mediaUrl : Option String
  expiresAt : Int
  createdAt : Int
deriving DecidableEq, Repr

/-- A persisted incident row; the id stands in for the database UUID. -/
structure Incident extends NewIncident where
  id : Nat
deriving DecidableEq, Repr

/-- createIncident: a plain INSERT returning the stored row. The id is
assigned at persistence time; the insert performs no lookup of nearby
or same-type incidents. -/
def createIncident (db : List Incident) (n : NewIncident) : Incident × List Incident :=
  let row : Incident := { n with id := db.length }
  (row, db ++ [row])

/-- updateIncidentConfirmations: read the current confirmation count
(null coalesced to 0 via JS or-else), clamp the incremented value at 0,
and rewrite both the count and the status of the row, the status being
recomputed purely from the new count. -/
def updateIncidentConfirmations (db : List Incident) (incidentId : Nat) (delta : Int) :
    Bool × List Incident :=
  let current := (db.find? (fun i => i.id == incidentId)).map (fun i => i.confirmations)
  let currentConfirmations := jsOrZero current
  let newConfirmations := max 0 (currentConfirmations + delta)
  (true,
   db.map (fun i =>
     if i.id == incidentId then
       { i with confirmations := newConfirmations,
                status := if 2 ≤ newConfirmations then .verified else .pending }
     else i))

/-! ## User store -/

/-- The user columns touched by the trust and report-count updates. -/
structure User where
  telegramId : String
  trustScore : Int
  reportsCount : Int
  accurateReports : Int
deriving DecidableEq, Repr

/-- updateUserTrustScore: look the user up; absent user means no write
and a false result; otherwise store the delta-adjusted score clamped
into the interval from 0 to 100. -/
def updateUserTrustScore (users : List User) (telegramId : String) (delta : Int) :
    Bool × List User :=
  match users.find? (fun u => u.telegramId == telegramId) with
  | none => (false, users)
  | some _ =>
    (true,
     users.map (fun u =>
       if u.telegramId == telegramId then
         { u with trustScore := max 0 (min 100 (u.trustScore + delta)) }
       else u))

/-- incrementUserReports, via the increment_reports RPC of the SQL
schema: add one to reports_count of the matching user. -/
def incrementUserReports (users : List User) (telegramId : String) : List User :=
  users.map (fun u =>
    if u.telegramId == telegramId then { u with reportsCount := u.reportsCount + 1 }
    else u)

/-! ## Confirmation store -/

/-- A row of the confirmations table. -/
structure ConfRow where
  incidentId : Nat
  userTelegramId : String
  vote : Vote
deriving DecidableEq, Repr

/-- The UNIQUE(incident_id, user_telegram_id) constraint: does a row
for this pair already exist. -/
def hasVoted (confs : List ConfRow) (incidentId : Nat) (userTelegramId : String) : Bool :=
  confs.any (fun r => r.incidentId == incidentId && r.userTelegramId == userTelegramId)

/-- addConfirmation: INSERT a confirmation row; a uniqueness violation
(error code 23505) is swallowed and reported as a false result, leaving
the table unchanged; a fresh pair is appended and reported true. The
TS function catches every exception, so no error reaches the caller. -/
def addConfirmation (confs : List ConfRow) (incidentId : Nat) (userTelegramId : String)
    (vote : Vote) : Bool × List ConfRow :=
  if hasVoted confs incidentId userTelegramId then (false, confs)
  else (true, confs ++ [⟨incidentId, userTelegramId, vote⟩])

/-- Number of confirmation rows stored for a given pair. -/
def voteCount (confs : List ConfRow) (incidentId : Nat) (userTelegramId : String) : Nat :=
  (confs.filter (fun r => r.incidentId == incidentId && r.userTelegramId == userTelegramId)).length

/-- Replay a sequence of addConfirmation calls against a table. -/
def runConfirmationCalls (calls : List (Nat × String × Vote)) (confs : List ConfRow) :
    List ConfRow :=
  calls.foldl (fun acc c => (addConfirmation acc c.1 c.2.1 c.2.2).2) confs

/-! ## Telegram confirm button (bot.action confirm underscore id)

The handler answers the callback, records the vote through
addConfirmation, and replies; it performs no other store operation:
in particular it never calls updateIncidentConfirmations, so the
incidents table is untouched. -/

def confirmAction (incidents : List Incident) (confs : List ConfRow)
    (incidentId : Nat) (userId : String) : Bool × List Incident × List ConfRow :=
  let r := addConfirmation confs incidentId userId Vote.confirm
  (r.1, incidents, r.2)

/-! ## Report intake state (services/telegram.ts in-memory maps) -/

inductive ReportStep
  | awaiting_description
  | awaiting_location
deriving DecidableEq, Repr

/-- An in-flight report held in the pendingReports map. -/
structure PendingReport where
  userId : String
  type : IncidentType
  description : Option String
  severity : Option Nat
  mediaUrl : Option String
  step : ReportStep
  createdAt : Int
deriving DecidableEq, Repr

inductive RouteStep
  | origin
  | destination
deriving DecidableEq, Repr

/-- An entry of the pendingRoutes map; its mere presence diverts a
location message into the route flow. -/
structure RoutePending where
  origin : Option Coordinates
  destination : Option Coordinates
  step : RouteStep
deriving DecidableEq, Repr

inductive FuelStep
  | awaiting_location
  | awaiting_price
deriving DecidableEq, Repr

/-- An entry of the pendingFuel map. -/
structure FuelPending where
  step : FuelStep
  stationId : Option String
deriving DecidableEq, Repr

/-- An entry of the adminStates map. -/
inductive AdminStep
  | broadcast_message
deriving DecidableEq, Repr

/-- The state touched by a location message: the four per-user maps,
the incidents table and the users table. -/
structure TgState where
  pendingReports : List (String × PendingReport)
  pendingRoutes : List (String × RoutePending)
  pendingFuel : List (String × FuelPending)
  adminStates : List (String × AdminStep)
  incidents : List Incident
  users : List User
deriving DecidableEq, Repr

/-- What a location message ends up doing. -/
inductive LocOutcome
  | routeFlow
  | fuelFlow
  | adminIgnored
  | nearbyLookup
  | reported (inc : Incident)
deriving DecidableEq, Repr

/-- The guard of the route branch of the location handler. -/
def routeDiverts (s : TgState) (userId : String) : Bool :=
  (s.pendingRoutes.lookup userId).isSome

/-- The guard of the fuel branch: an entry whose step is
awaiting_location. -/
def fuelDiverts (s : TgState) (userId : String) : Bool :=
  match s.pendingFuel.lookup userId with
  | some f => f.step == FuelStep.awaiting_location
  | none => false

/-- The admin guard inside handleLocation: the user is mid
broadcast-message flow. -/
def adminDiverts (s : TgState) (userId : String) : Bool :=
  s.adminStates.lookup userId == some AdminStep.broadcast_message

/-- The incident payload built at the finalize step of handleLocation:
description defaulted to the empty string, severity JS-defaulted to 3,
status pending, zero confirmations, expiry four hours after now. -/
def telegramCandidate (p : PendingReport) (userId : String) (loc : Coordinates)
    (now : Int) : NewIncident :=
  { type := p.type
    description := some (p.description.getD "")
    location := loc
    address := none
    severity := jsOrNat p.severity 3
    status := .pending
    reporterId := userId
    reporterUsername := none
    confirmations := 0
    mediaUrl := p.mediaUrl
    expiresAt := now + 4 * 60 * 60 * 1000
    createdAt := now }

/-- The finalize step of handleLocation: persist the candidate via
createIncident, reward the reporter via incrementUserReports, and
remove the pending entry. -/
def finalizeReport (s : TgState) (userId : String) (p : PendingReport)
    (loc : Coordinates) (now : Int) : LocOutcome × TgState :=
  let created := createIncident s.incidents (telegramCandidate p userId loc now)
  (LocOutcome.reported created.1,
   { s with incidents := created.2,
            users := incrementUserReports s.users userId,
            pendingReports := s.pendingReports.eraseP (fun q => q.1 == userId) })

/-- TelegramService.handleLocation: bail out silently for an admin mid
broadcast; with no pending report, or a pending report not awaiting a
location, fall back to the ambient nearby-incident lookup; otherwise
finalize the report. -/
def handleLocation (s : TgState) (userId : String) (loc : Coordinates) (now : Int) :
    LocOutcome × TgState :=
  if adminDiverts s userId then (LocOutcome.adminIgnored, s)
  else
    match s.pendingReports.lookup userId with
    | none => (LocOutcome.nearbyLookup, s)
    | some p =>
      if p.step == ReportStep.awaiting_location then finalizeReport s userId p loc now
      else (LocOutcome.nearbyLookup, s)

/-- The bot.on location handler: a pending route diverts into the route
flow; a pending fuel entry awaiting a location diverts into the fuel
lookup (clearing the entry); everything else goes to handleLocation. -/
def onLocationMessage (s : TgState) (userId : String) (loc : Coordinates) (now : Int) :
    LocOutcome × TgState :=
  if routeDiverts s userId then (LocOutcome.routeFlow, s)
  else if fuelDiverts s userId then
    (LocOutcome.fuelFlow, { s with pendingFuel := s.pendingFuel.eraseP (fun q => q.1 == userId) })
  else handleLocation s userId loc now

/-! ## HTTP report route (api/routes.ts POST /report) -/

/-- router.post /report: reject when a required field is missing or
falsy (JS truthiness, so a zero coordinate is also rejected); otherwise
insert an incident in pending status expiring sixty minutes after now. -/
def apiReport (db : List Incident) (userId : String) (ty : Option IncidentType)
    (description : Option String) (latitude longitude : ℚ) (severity : Option Nat)
    (now : Int) : Option (Incident × List Incident) :=
  match ty with
  | none => none
  | some t =>
    if userId = "" ∨ latitude = 0 ∨ longitude = 0 then none
    else
      some (createIncident db
        { type := t
          description := description
          location := { latitude := latitude, longitude := longitude }
          address := some ""
          severity := jsOrNat severity 3
          status := .pending
          reporterId := userId
          reporterUsername := some "native_app_user"
          confirmations := 0
          mediaUrl := none
          expiresAt := now + 60 * 60 * 1000
          createdAt := now })

/-! ## Concrete fixtures used by the claim instances -/

/-- A verified incident with two confirmations, for the C10 instance. -/
def c10Seed : Incident :=
  { type := .accident, description := some "collision", location := ⟨4, 9⟩,
    address := none, severity := 3, status := .verified, reporterId := "R",
    reporterUsername := none, confirmations := 2, mediaUrl := none,
    expiresAt := 3600000, createdAt := 0, id := 7 }

/-- The row stored after applying a delta of minus one to c10Seed. -/
def c10Row : Incident :=
  { c10Seed with confirmations := 1, status := .pending }

/-- A pending flooding report awaiting its location, for the C1 run. -/
def floodPending (uid : String) : PendingReport :=
  { userId := uid, type := .flooding, description := some "Inondation",
    severity := none, mediaUrl := none, step := .awaiting_location, createdAt := 0 }

/-- Two reporters, both one location message away from finalizing a
flooding report, over an empty incident store. -/
def c1State : TgState :=
  { pendingReports := [("A", floodPending "A"), ("B", floodPending "B")],
    pendingRoutes := [], pendingFuel := [], adminStates := [],
    incidents := [],
    users := [⟨"A", 50, 0, 0⟩, ⟨"B", 50, 0, 0⟩] }

def c1Loc : Coordinates := ⟨4, 9⟩

/-- Reporter A finalizes at time 0, reporter B three minutes later at
the same location (zero meters apart, well within fifty). -/
def c1Run : TgState :=
  (onLocationMessage (onLocationMessage c1State "A" c1Loc 0).2 "B" c1Loc 180000).2

/-- A pending accident report awaiting its location, for the C3
instance. -/
def c3Pending : PendingReport :=
  { userId := "C", type := .accident, description := some "collision",
    severity := some 4, mediaUrl := none, step := .awaiting_location,
    createdAt := 0 }

def c3State : TgState :=
  { pendingReports := [("C", c3Pending)],
    pendingRoutes := [], pendingFuel := [], adminStates := [],
    incidents := [],
    users := [⟨"C", 50, 0, 0⟩] }

def c3Loc : Coordinates := ⟨4, 9⟩

/-- The incident row the Telegram flow persists from c3State. -/
def c3RowT : Incident :=
  { telegramCandidate c3Pending "C" c3Loc 0 with id := 0 }

/-- The incident row the HTTP report route persists in the C3 instance. -/
def c3RowA : Incident :=
  { type := .accident, description := none, location := ⟨4, 9⟩,
    address := some "", severity := 3, status := .pending, reporterId := "u1",
    reporterUsername := some "native_app_user", confirmations := 0, mediaUrl := none,
    expiresAt := 3600000, createdAt := 0, id := 0 }

/-- A pending hazard report awaiting its location, for the C4
instance. -/
def c4Pending : PendingReport :=
  { userId := "A", type := .hazard, description := some "arbre tombé",
    severity := none, mediaUrl := none, step := .awaiting_location,
    createdAt := 0 }

/-- A reporter with trust score 50 and no reports yet, one location
message away from finalizing, for the C4 instance. -/
def c4State : TgState :=
  { pendingReports := [("A", c4Pending)],
    pendingRoutes := [], pendingFuel := [], adminStates := [],
    incidents := [],
    users := [⟨"A", 50, 0, 0⟩] }

def c4Run : TgState := (onLocationMessage c4State "A" ⟨4, 9⟩ 0).2

/-- An incident for the C2 run: pending with zero confirmations. -/
def c2Incident : Incident :=
  { type := .accident, description := some "collision", location := ⟨4, 9⟩,
    address := none, severity := 3, status := .pending, reporterId := "R",
    reporterUsername := none, confirmations := 0, mediaUrl := none,
    expiresAt := 3600000, createdAt := 0, id := 0 }

/-- A user mid admin-broadcast flow with no pending report, route or
fuel entry, for the C9 instance. -/
def c9State : TgState :=
  { pendingReports := [], pendingRoutes := [], pendingFuel := [],
    adminStates := [("A", .broadcast_message)],
    incidents := [], users := [⟨"A", 50, 0, 0⟩] }

/-- The same situation without the admin-broadcast entry. -/
def c9StateB : TgState :=
  { pendingReports := [], pendingRoutes := [], pendingFuel := [],
    adminStates := [],
    incidents := [], users := [⟨"A", 50, 0, 0⟩] }

def c9Loc : Coordinates := ⟨4, 9⟩

/-! ## Helper lemmas -/

theorem jsOrZero_some (c : Int) : jsOrZero (some c) = c := by
  rcases eq_or_ne c 0 with h | h <;> simp [jsOrZero, h]

/-- The if/else chain of fallbackParse computes the first hit of the
ordered rule list. -/
theorem inferType_eq_firstRuleType (lowerText : List Char) :
    inferType lowerText = firstRuleType lowerText := by
  unfold inferType firstRuleType typeRules
  simp only [List.find?]
  repeat' split <;> simp_all

/-! ## Claim C5 -/

set_option maxRecDepth 100000 in
/-- Claim C5: the fallback classifier decides emergency by a
case-insensitive whole-word match against the keyword set sos, urgence,
emergency, help, au secours, aide; whenever that matches it returns
type sos, severity 5 and isEmergency true regardless of any other type
keywords in the text; and the input "SOS aide au secours" yields
exactly that result. -/
theorem c5_emergency_forces_sos :
    (∀ text : String,
      (fallbackParse text).isEmergency
        = anyWordMatch (text.toList.map jsLower) emergencyKeywords) ∧
    (∀ text : String,
      anyWordMatch (text.toList.map jsLower) emergencyKeywords = true →
        (fallbackParse text).type = .sos ∧ (fallbackParse text).severity = 5 ∧
        (fallbackParse text).isEmergency = true) ∧
    fallbackParse "SOS aide au secours" =
      { type := .sos, severity := 5, description := "SOS aide au secours",
        isEmergency := true, confidence := 6 / 10 } := by
  refine ⟨fun _ => rfl, fun text h => ?_, ?_⟩
  · have h' : anyWordMatch (text.data.map jsLower) emergencyKeywords = true := h
    simp [fallbackParse, h']
  · simp only [fallbackParse, ParsedIncident.mk.injEq]
    and_intros <;> trivial

/-- Concrete instantiation of the emergency conjunct of C5. -/
theorem c5_emergency_forces_sos_witness :
    anyWordMatch ("SOS".toList.map jsLower) emergencyKeywords = true ∧
    ((fallbackParse "SOS").type = .sos ∧ (fallbackParse "SOS").severity = 5 ∧
      (fallbackParse "SOS").isEmergency = true) :=
  ⟨by decide, c5_emergency_forces_sos.2.1 "SOS" (by decide)⟩

/-! ## Claim C6 -/

set_option maxRecDepth 100000 in
/-- Claim C6: for every non-emergency text the fallback classifier
returns the type of the first matching rule of the ordered rule list
(accident, police_control, flooding, traffic_jam, road_works, hazard,
road_damage, protest, roadblock; no match gives other), severity 3,
description equal to the input truncated to 100 characters and
confidence 0.6; and "Accident grave au carrefour Bastos" with no
backend configured yields type accident, severity 3, isEmergency
false. -/
theorem c6_ordered_rules :
    (∀ text : String,
      anyWordMatch (text.toList.map jsLower) emergencyKeywords = false →
        fallbackParse text =
          { type := firstRuleType (text.toList.map jsLower), severity := 3,
            description := text.take 100, isEmergency := false,
            confidence := 6 / 10 }) ∧
    analyzeTextNoBackend "Accident grave au carrefour Bastos" =
      { type := .accident, severity := 3,
        description := "Accident grave au carrefour Bastos", isEmergency := false,
        confidence := 6 / 10 } := by
  constructor
  · intro text h
    have h' : anyWordMatch (text.data.map jsLower) emergencyKeywords = false := h
    simp [fallbackParse, h', inferType_eq_firstRuleType]
  · simp only [analyzeTextNoBackend, fallbackParse, ParsedIncident.mk.injEq]
    and_intros <;> trivial

/-- Concrete instantiation of the non-emergency conjunct of C6. -/
theorem c6_ordered_rules_witness :
    anyWordMatch ("Inondation au pont".toList.map jsLower) emergencyKeywords = false ∧
    fallbackParse "Inondation au pont" =
      { type := firstRuleType ("Inondation au pont".toList.map jsLower), severity := 3,
        description := "Inondation au pont".take 100, isEmergency := false,
        confidence := 6 / 10 } :=
  ⟨by decide, c6_ordered_rules.1 "Inondation au pont" (by decide)⟩

/-! ## Claim C7 -/

theorem voteCount_nil (i : Nat) (u : String) : voteCount [] i u = 0 := rfl

theorem voteCount_append_single (confs : List ConfRow) (r : ConfRow) (i : Nat)
    (u : String) :
    voteCount (confs ++ [r]) i u
      = voteCount confs i u
        + (if r.incidentId == i && r.userTelegramId == u then 1 else 0) := by
  unfold voteCount
  rw [List.filter_append]
  simp only [List.length_append]
  congr 1
  cases hm : (r.incidentId == i && r.userTelegramId == u) <;> simp [List.filter, hm]

theorem voteCount_eq_zero (confs : List ConfRow) (i : Nat) (u : String)
    (h : hasVoted confs i u = false) : voteCount confs i u = 0 := by
  unfold hasVoted at h
  unfold voteCount
  induction confs with
  | nil => rfl
  | cons a l ih =>
    simp only [List.any_cons, Bool.or_eq_false_iff] at h
    simp only [List.filter, h.1]
    exact ih h.2

theorem voteCount_addConfirmation_le (confs : List ConfRow) (i' : Nat) (u' : String)
    (v : Vote) (i : Nat) (u : String) (h : voteCount confs i u ≤ 1) :
    voteCount (addConfirmation confs i' u' v).2 i u ≤ 1 := by
  unfold addConfirmation
  cases hv : hasVoted confs i' u' with
  | true => simpa [hv] using h
  | false =>
    simp only [hv, Bool.false_eq_true, if_false]
    rw [voteCount_append_single]
    cases hm : ((ConfRow.mk i' u' v).incidentId == i
        && (ConfRow.mk i' u' v).userTelegramId == u) with
    | false => simpa [hm] using h
    | true =>
      simp only [hm, if_true]
      simp only [Bool.and_eq_true, beq_iff_eq] at hm
      have h0 : voteCount confs i u = 0 :=
        voteCount_eq_zero confs i u (hm.1 ▸ hm.2 ▸ hv)
      omega

theorem voteCount_runCalls_le (calls : List (Nat × String × Vote)) (confs : List ConfRow)
    (i : Nat) (u : String) (h : voteCount confs i u ≤ 1) :
    voteCount (runConfirmationCalls calls confs) i u ≤ 1 := by
  induction calls generalizing confs with
  | nil => exact h
  | cons c cs ih =>
    simp only [runConfirmationCalls, List.foldl_cons]
    exact ih _ (voteCount_addConfirmation_le confs c.1 c.2.1 c.2.2 i u h)

/-- Claim C7: replaying any sequence of addConfirmation calls against an
initially empty confirmations table leaves at most one row per pair of
incident and reporter; and once a call for a pair has succeeded, any
repeated call for that pair returns false and leaves the table
unchanged, with no error reaching the caller. -/
theorem c7_at_most_one_confirmation :
    (∀ (calls : List (Nat × String × Vote)) (incidentId : Nat) (userTelegramId : String),
      voteCount (runConfirmationCalls calls []) incidentId userTelegramId ≤ 1) ∧
    (∀ (confs : List ConfRow) (incidentId : Nat) (userTelegramId : String) (v v' : Vote),
      (addConfirmation confs incidentId userTelegramId v).1 = true →
        (addConfirmation (addConfirmation confs incidentId userTelegramId v).2
            incidentId userTelegramId v').1 = false ∧
        (addConfirmation (addConfirmation confs incidentId userTelegramId v).2
            incidentId userTelegramId v').2
          = (addConfirmation confs incidentId userTelegramId v).2) := by
  constructor
  · intro calls i u
    exact voteCount_runCalls_le calls [] i u (by simp [voteCount_nil])
  · intro confs i u v v' hsucc
    unfold addConfirmation at hsucc ⊢
    cases hv : hasVoted confs i u with
    | true => simp [hv] at hsucc
    | false =>
      simp only [hv, Bool.false_eq_true, if_false]
      have hafter : hasVoted (confs ++ [⟨i, u, v⟩]) i u = true := by
        unfold hasVoted
        simp
      simp [hafter]

/-- Concrete instantiation of C7: a confirm then a deny by the same
reporter on the same incident leaves one row, and the second call is a
soft rejection. -/
theorem c7_at_most_one_confirmation_witness :
    voteCount (runConfirmationCalls [(0, "A", Vote.confirm), (0, "A", Vote.deny)] []) 0 "A" ≤ 1 ∧
    ((addConfirmation [] 0 "A" Vote.confirm).1 = true ∧
      (addConfirmation (addConfirmation [] 0 "A" Vote.confirm).2 0 "A" Vote.deny).1 = false ∧
      (addConfirmation (addConfirmation [] 0 "A" Vote.confirm).2 0 "A" Vote.deny).2
        = (addConfirmation [] 0 "A" Vote.confirm).2) :=
  ⟨c7_at_most_one_confirmation.1 [(0, "A", Vote.confirm), (0, "A", Vote.deny)] 0 "A",
   by decide,
   c7_at_most_one_confirmation.2 [] 0 "A" Vote.confirm Vote.deny (by decide)⟩

/-! ## Claim C8 -/

/-- Claim C8: after any trust-score update with any delta, the stored
trust score of the targeted reporter lies between 0 and 100. -/
theorem c8_trust_score_clamped (users : List User) (telegramId : String) (delta : Int)
    (u : User) (hu : u ∈ (updateUserTrustScore users telegramId delta).2)
    (hid : u.telegramId = telegramId) :
    0 ≤ u.trustScore ∧ u.trustScore ≤ 100 := by
  unfold updateUserTrustScore at hu
  cases hfind : users.find? (fun v => v.telegramId == telegramId) with
  | none =>
    rw [hfind] at hu
    simp only at hu
    have := List.find?_eq_none.mp hfind u hu
    simp [hid] at this
  | some w =>
    rw [hfind] at hu
    simp only at hu
    obtain ⟨a, _, rfl⟩ := List.mem_map.mp hu
    cases hbe : (a.telegramId == telegramId) with
    | true =>
      simp only [hbe, if_true]
      exact ⟨le_max_left _ _, max_le (by norm_num) (min_le_left _ _)⟩
    | false =>
      simp only [hbe, Bool.false_eq_true, if_false] at hid
      simp [hid] at hbe

/-- Concrete instantiation of C8: a large negative delta still lands in
bounds. -/
theorem c8_trust_score_clamped_witness :
    (⟨"A", 0, 3, 1⟩ : User) ∈ (updateUserTrustScore [⟨"A", 50, 3, 1⟩] "A" (-200)).2 ∧
    (0 ≤ (⟨"A", 0, 3, 1⟩ : User).trustScore ∧ (⟨"A", 0, 3, 1⟩ : User).trustScore ≤ 100) :=
  ⟨by decide, c8_trust_score_clamped [⟨"A", 50, 3, 1⟩] "A" (-200) ⟨"A", 0, 3, 1⟩
    (by decide) (by decide)⟩

/-! ## Claim C10 -/

/-- Claim C10: updateIncidentConfirmations stores max 0 (current plus
delta) as the confirmation count of the targeted incident and rewrites
its status purely from that new count, verified exactly when the new
count is at least 2 and pending otherwise, irrespective of the previous
status; in particular the stored count is never negative. -/
theorem c10_confirmations_rewrite (db : List Incident) (incidentId : Nat) (delta : Int)
    (cur : Incident) (hcur : db.find? (fun i => i.id == incidentId) = some cur) :
    ∀ inc ∈ (updateIncidentConfirmations db incidentId delta).2, inc.id = incidentId →
      inc.confirmations = max 0 (cur.confirmations + delta) ∧
      0 ≤ inc.confirmations ∧
      inc.status = (if 2 ≤ inc.confirmations then IncidentStatus.verified
                    else IncidentStatus.pending) := by
  have heq : (updateIncidentConfirmations db incidentId delta).2
      = db.map (fun i =>
          if i.id == incidentId then
            { i with confirmations := max 0 (cur.confirmations + delta),
                     status := if 2 ≤ max 0 (cur.confirmations + delta)
                               then IncidentStatus.verified else IncidentStatus.pending }
          else i) := by
    unfold updateIncidentConfirmations
    rw [hcur]
    simp [jsOrZero_some]
  intro inc hmem hid
  rw [heq] at hmem
  obtain ⟨a, _, rfl⟩ := List.mem_map.mp hmem
  cases hbe : (a.id == incidentId) with
  | true =>
    refine ⟨?_, ?_, ?_⟩ <;> simp [hbe, le_max_left]
  | false =>
    simp only [hbe, Bool.false_eq_true, if_false] at hid
    simp [hid] at hbe

/-- Concrete instantiation of C10: a delta of minus one on a verified
incident with two confirmations demotes it to pending with count one. -/
theorem c10_confirmations_rewrite_witness :
    c10Row.confirmations = max 0 ((2 : Int) + (-1)) ∧
    0 ≤ c10Row.confirmations ∧
    c10Row.status = (if 2 ≤ c10Row.confirmations then IncidentStatus.verified
                     else IncidentStatus.pending) := by
  have h := c10_confirmations_rewrite [c10Seed] 7 (-1) c10Seed (by decide) c10Row
    (by decide) (by decide)
  exact h

/-! ## Finalize-step shape lemma shared by the flow claims -/

/-- When the route, fuel and admin guards are clear and the reporter has
a pending report awaiting its location, the location message finalizes:
the candidate row is appended to the incident store, the reporter's
report count is bumped, and the pending entry is erased. -/
theorem onLocation_finalize (s : TgState) (userId : String) (loc : Coordinates)
    (now : Int) (p : PendingReport)
    (hroute : routeDiverts s userId = false)
    (hfuel : fuelDiverts s userId = false)
    (hadmin : adminDiverts s userId = false)
    (hp : s.pendingReports.lookup userId = some p)
    (hstep : p.step = ReportStep.awaiting_location) :
    onLocationMessage s userId loc now
      = (LocOutcome.reported
           { telegramCandidate p userId loc now with id := s.incidents.length },
         { s with
            incidents := s.incidents
              ++ [{ telegramCandidate p userId loc now with id := s.incidents.length }],
            users := incrementUserReports s.users userId,
            pendingReports := s.pendingReports.eraseP (fun q => q.1 == userId) }) := by
  simp [onLocationMessage, handleLocation, finalizeReport, createIncident,
    hroute, hfuel, hadmin, hp, hstep]

/-! ## Claim C1 -/

/-- Counterexample to claim C1: two flooding reports finalized three
minutes apart at the same location produce two persisted incident rows,
each with confirmation count 0 — not one incident with confirmation
count at least 2. -/
theorem c1_dedup_counterexample :
    c1Run.incidents.length = 2 ∧
    ¬ c1Run.incidents.length = 1 ∧
    ∀ inc ∈ c1Run.incidents, inc.confirmations = 0 ∧ ¬ 2 ≤ inc.confirmations := by
  decide

/-- Claim C1 (amended): every report reaching the finalize-on-location
step unconditionally appends a fresh incident row with confirmation
count 0 — no dedup query is issued — so two reports of the same type
within 50 meters and 10 minutes of each other yield two persisted
incidents, the second never being applied as a confirmation of the
first. -/
theorem c1_no_dedup_two_rows (s : TgState) (u1 u2 : String) (loc1 loc2 : Coordinates)
    (t1 t2 : Int) (p1 p2 : PendingReport)
    (h1r : routeDiverts s u1 = false) (h1f : fuelDiverts s u1 = false)
    (h1a : adminDiverts s u1 = false)
    (h1p : s.pendingReports.lookup u1 = some p1)
    (h1s : p1.step = ReportStep.awaiting_location)
    (h2r : routeDiverts (onLocationMessage s u1 loc1 t1).2 u2 = false)
    (h2f : fuelDiverts (onLocationMessage s u1 loc1 t1).2 u2 = false)
    (h2a : adminDiverts (onLocationMessage s u1 loc1 t1).2 u2 = false)
    (h2p : (onLocationMessage s u1 loc1 t1).2.pendingReports.lookup u2 = some p2)
    (h2s : p2.step = ReportStep.awaiting_location) :
    (onLocationMessage (onLocationMessage s u1 loc1 t1).2 u2 loc2 t2).2.incidents
      = s.incidents
        ++ [{ telegramCandidate p1 u1 loc1 t1 with id := s.incidents.length }]
        ++ [{ telegramCandidate p2 u2 loc2 t2 with id := s.incidents.length + 1 }] ∧
    (telegramCandidate p1 u1 loc1 t1).confirmations = 0 ∧
    (telegramCandidate p2 u2 loc2 t2).confirmations = 0 := by
  have e1 := onLocation_finalize s u1 loc1 t1 p1 h1r h1f h1a h1p h1s
  have e2 := onLocation_finalize _ u2 loc2 t2 p2 h2r h2f h2a h2p h2s
  refine ⟨?_, rfl, rfl⟩
  rw [e2, e1]
  simp

/-- Concrete instantiation of the amended C1. -/
theorem c1_no_dedup_two_rows_witness :
    c1Run.incidents
      = ([] : List Incident)
        ++ [{ telegramCandidate (floodPending "A") "A" c1Loc 0 with id := 0 }]
        ++ [{ telegramCandidate (floodPending "B") "B" c1Loc 180000 with id := 1 }] ∧
    (telegramCandidate (floodPending "A") "A" c1Loc 0).confirmations = 0 ∧
    (telegramCandidate (floodPending "B") "B" c1Loc 180000).confirmations = 0 :=
  c1_no_dedup_two_rows c1State "A" "B" c1Loc c1Loc 0 180000
    (floodPending "A") (floodPending "B")
    (by decide) (by decide) (by decide) (by decide) (by decide)
    (by decide) (by decide) (by decide) (by decide) (by decide)

/-! ## Claim C2 -/

/-- Claim C2 is contradicted by the code: the confirm button handler
only inserts a confirmation row; it never calls
updateIncidentConfirmations, so the incident's confirmation counter and
status are untouched. Concretely, two distinct reporters confirming a
pending incident with zero confirmations both succeed, yet the incident
still has confirmation count 0 and status pending, while two
confirmation rows exist. -/
theorem c2_confirm_never_updates_incident :
    (∀ (incidents : List Incident) (confs : List ConfRow) (i : Nat) (u : String),
      (confirmAction incidents confs i u).2.1 = incidents) ∧
    ((confirmAction [c2Incident] [] 0 "A").1 = true ∧
      (confirmAction [c2Incident]
        (confirmAction [c2Incident] [] 0 "A").2.2 0 "B").1 = true ∧
      (confirmAction [c2Incident]
        (confirmAction [c2Incident] [] 0 "A").2.2 0 "B").2.1 = [c2Incident] ∧
      c2Incident.confirmations = 0 ∧
      c2Incident.status = IncidentStatus.pending ∧
      (confirmAction [c2Incident]
        (confirmAction [c2Incident] [] 0 "A").2.2 0 "B").2.2.length = 2) := by
  exact ⟨fun _ _ _ _ => rfl, by decide⟩

/-! ## Claim C3 -/

/-- Counterexample to claim C3: the incident persisted by the Telegram
finalize-on-location step expires four hours after creation, not sixty
minutes. -/
theorem c3_ttl_counterexample :
    (onLocationMessage c3State "C" c3Loc 0).2.incidents.length = 1 ∧
    (∀ inc ∈ (onLocationMessage c3State "C" c3Loc 0).2.incidents,
      inc.expiresAt - inc.createdAt = 14400000 ∧
      ¬ inc.expiresAt = inc.createdAt + 60 * 60 * 1000) := by
  decide

/-- Claim C3 (amended): every incident persisted by a completed report
flow is in pending status; the Telegram flow stamps an expiry 240
minutes after creation, while the HTTP report route stamps an expiry 60
minutes after creation. -/
theorem c3_pending_and_ttl :
    (∀ (s : TgState) (userId : String) (loc : Coordinates) (now : Int) (row : Incident),
      (onLocationMessage s userId loc now).1 = LocOutcome.reported row →
        row.status = IncidentStatus.pending ∧
        row.expiresAt = row.createdAt + 240 * 60 * 1000) ∧
    (∀ (db : List Incident) (userId : String) (ty : Option IncidentType)
        (description : Option String) (latitude longitude : ℚ)
        (severity : Option Nat) (now : Int) (r : Incident × List Incident),
      apiReport db userId ty description latitude longitude severity now = some r →
        r.1.status = IncidentStatus.pending ∧
        r.1.expiresAt = r.1.createdAt + 60 * 60 * 1000) := by
  constructor
  · intro s userId loc now row h
    unfold onLocationMessage handleLocation finalizeReport createIncident at h
    split at h
    · simp at h
    · split at h
      · simp at h
      · split at h
        · simp at h
        · split at h
          · simp at h
          · split at h
            · simp only [Prod.fst] at h
              cases h
              refine ⟨rfl, ?_⟩
              simp [telegramCandidate]
            · simp at h
  · intro db userId ty description latitude longitude severity now r h
    unfold apiReport createIncident at h
    split at h
    · simp at h
    · split at h
      · simp at h
      · simp only [Option.some_inj] at h
        cases h
        exact ⟨rfl, rfl⟩

/-- Concrete instantiation of the amended C3, one for each flow. -/
theorem c3_pending_and_ttl_witness :
    (c3RowT.status = IncidentStatus.pending ∧
      c3RowT.expiresAt = c3RowT.createdAt + 240 * 60 * 1000) ∧
    (c3RowA.status = IncidentStatus.pending ∧
      c3RowA.expiresAt = c3RowA.createdAt + 60 * 60 * 1000) :=
  ⟨c3_pending_and_ttl.1 c3State "C" c3Loc 0 c3RowT (by decide),
   c3_pending_and_ttl.2 [] "u1" (some .accident) none 4 9 none 0 (c3RowA, [c3RowA])
     (by decide)⟩

/-! ## Claim C4 -/

/-- Counterexample to claim C4: a reporter with trust score 50 finalizes
a persisted report; afterwards the report count is 1 but the trust
score is still exactly 50 — it was not increased by any positive
delta. -/
theorem c4_trust_counterexample :
    c4Run.users = [⟨"A", 50, 1, 0⟩] ∧
    c4Run.users.map (fun u => u.trustScore) = c4State.users.map (fun u => u.trustScore) := by
  decide

/-- Claim C4 (amended): on every Telegram-flow report submission that is
persisted, the reporter's lifetime report count is incremented by one,
and the trust score of every stored user is left unchanged —
updateUserTrustScore, the only clamped trust write, is not invoked on
submission. -/
theorem c4_reports_bumped_trust_unchanged (s : TgState) (userId : String)
    (loc : Coordinates) (now : Int) (p : PendingReport)
    (hroute : routeDiverts s userId = false)
    (hfuel : fuelDiverts s userId = false)
    (hadmin : adminDiverts s userId = false)
    (hp : s.pendingReports.lookup userId = some p)
    (hstep : p.step = ReportStep.awaiting_location) :
    (onLocationMessage s userId loc now).2.users = incrementUserReports s.users userId ∧
    (onLocationMessage s userId loc now).2.users.map (fun u => u.trustScore)
      = s.users.map (fun u => u.trustScore) ∧
    (onLocationMessage s userId loc now).2.users.map (fun u => u.reportsCount)
      = s.users.map (fun u =>
          if u.telegramId == userId then u.reportsCount + 1 else u.reportsCount) := by
  rw [onLocation_finalize s userId loc now p hroute hfuel hadmin hp hstep]
  refine ⟨rfl, ?_, ?_⟩
  · show (incrementUserReports s.users userId).map (fun u => u.trustScore)
      = s.users.map (fun u => u.trustScore)
    unfold incrementUserReports
    rw [List.map_map]
    refine List.map_congr_left ?_
    intro a _
    by_cases hbe : a.telegramId = userId <;> simp [hbe]
  · show (incrementUserReports s.users userId).map (fun u => u.reportsCount)
      = s.users.map (fun u =>
          if u.telegramId == userId then u.reportsCount + 1 else u.reportsCount)
    unfold incrementUserReports
    rw [List.map_map]
    refine List.map_congr_left ?_
    intro a _
    by_cases hbe : a.telegramId = userId <;> simp [hbe]

/-- Concrete instantiation of the amended C4. -/
theorem c4_reports_bumped_trust_unchanged_witness :
    c4Run.users = incrementUserReports c4State.users "A" ∧
    c4Run.users.map (fun u => u.trustScore)
      = c4State.users.map (fun u => u.trustScore) ∧
    c4Run.users.map (fun u => u.reportsCount)
      = c4State.users.map (fun u =>
          if u.telegramId == "A" then u.reportsCount + 1 else u.reportsCount) :=
  c4_reports_bumped_trust_unchanged c4State "A" ⟨4, 9⟩ 0 c4Pending
    (by decide) (by decide) (by decide) (by decide) (by decide)

/-! ## Claim C9 -/

/-- Counterexample to claim C9: a reporter in the admin
broadcast-message flow, with no pending report, route or fuel entry,
sends a location; no incident is created, but the message is silently
dropped rather than handled as a nearby-incident lookup. -/
theorem c9_ambient_counterexample :
    (onLocationMessage c9State "A" c9Loc 0).1 = LocOutcome.adminIgnored ∧
    ¬ (onLocationMessage c9State "A" c9Loc 0).1 = LocOutcome.nearbyLookup ∧
    (onLocationMessage c9State "A" c9Loc 0).2.incidents = c9State.incidents := by
  decide

/-- Claim C9 (amended): a location message from a reporter with no
pending report awaiting a location (and no pending route or
fuel-location flow) never creates an incident: outside the admin
broadcast-message flow it is handled as the ambient nearby-incident
lookup with the whole state unchanged, and inside the admin
broadcast-message flow it is ignored with the whole state unchanged. -/
theorem c9_ambient_lookup (s : TgState) (userId : String) (loc : Coordinates) (now : Int)
    (hroute : routeDiverts s userId = false)
    (hfuel : fuelDiverts s userId = false)
    (hpend : ∀ p, s.pendingReports.lookup userId = some p →
      ¬ p.step = ReportStep.awaiting_location) :
    (adminDiverts s userId = false →
      onLocationMessage s userId loc now = (LocOutcome.nearbyLookup, s)) ∧
    (adminDiverts s userId = true →
      onLocationMessage s userId loc now = (LocOutcome.adminIgnored, s)) := by
  constructor
  · intro hadmin
    unfold onLocationMessage handleLocation
    rw [hroute, hfuel, hadmin]
    simp only [Bool.false_eq_true, if_false]
    cases hp : s.pendingReports.lookup userId with
    | none => rfl
    | some p =>
      have hstep := hpend p hp
      have hstepb : (p.step == ReportStep.awaiting_location) = false := by
        simpa using hstep
      simp [hstepb]
  · intro hadmin
    unfold onLocationMessage handleLocation
    rw [hroute, hfuel, hadmin]
    simp

/-- Concrete instantiation of the amended C9, one for each branch. -/
theorem c9_ambient_lookup_witness :
    onLocationMessage c9StateB "A" c9Loc 0 = (LocOutcome.nearbyLookup, c9StateB) ∧
    onLocationMessage c9State "A" c9Loc 0 = (LocOutcome.adminIgnored, c9State) :=
  ⟨(c9_ambient_lookup c9StateB "A" c9Loc 0 (by decide) (by decide)
      (by intro p hp; cases hp)).1 (by decide),
   (c9_ambient_lookup c9State "A" c9Loc 0 (by decide) (by decide)
      (by intro p hp; cases hp)).2 (by decide)⟩

end Asteck

